import Mathlib

/-
Verification of the analysis notebook `programs-expanded-comparison.ipynb`.

The notebook reads JSON report files and a pickled validation set and prints
aggregate statistics.  We embed its three pieces of logic:

* cell-3's summary read: `json.loads(next(open(path)))` — take the first
  line of a file and parse it as a flat JSON object;
* cell-4's validation-set load: repeated `pickle.load` appending records
  until `EOFError`, which is caught and ends the loop normally, while any
  other unpickling failure propagates;
* cell-6's `error(b)`: given a parsed baseline result list and the loaded
  validation set, `e = sum(r['output'] == d['code'] for r, d in zip(result, data))`
  and `a = sum(q['is_correct'] for q in result)`, returned as `(e, a)`.

Files are represented by their parsed contents (a list of lines for the
report file, a list of pickle stream items for the validation set, a list of
records for a baseline document); machine-level I/O is outside the embedding.
-/

namespace SED

/-- One entry of the reference validation dataset; the notebook only reads
its `code` field (the ground-truth program text). -/
structure ValidationExample where
  code : String
  deriving DecidableEq, Repr

/-- One per-example prediction record of a baseline result file, with the
predicted program text `output` and the baseline's own correctness flag. -/
structure BaselineRecord where
  output : String
  is_correct : Bool
  deriving DecidableEq, Repr

/-- Embedding of the notebook's `error(b)` body after the baseline file has
been parsed: `e = sum([r['output'] == d['code'] for r, d in zip(result, data)])`
and `a = sum([q['is_correct'] for q in result])`, returning `(e, a)`.
Python sums booleans as integers, embedded as sums of `if _ then 1 else 0`. -/
def error (result : List BaselineRecord) (data : List ValidationExample) :
    Nat × Nat :=
  (((result.zip data).map (fun p => if p.1.output == p.2.code then 1 else 0)).sum,
   (result.map (fun q => if q.is_correct then 1 else 0)).sum)

/-- One item of the pickled validation-set stream: either a record that
unpickles successfully or a malformed blob whose `pickle.load` raises a
non-`EOFError` exception. -/
inductive PickleItem where
  | ok (v : ValidationExample)
  | bad
  deriving DecidableEq

/-- The failure modes of the notebook's loads: `next()` on an empty file
(`StopIteration`), a line that is not a valid JSON document, and a
non-`EOFError` unpickling failure. -/
inductive LoadError where
  | endOfStream
  | parseError
  | unpickleError
  deriving DecidableEq, Repr

/-- Embedding of cell-4's loop: `pickle.load` records are appended one at a
time; exhausting the stream raises `EOFError`, which the `except EOFError`
arm catches, ending the load normally with the records read; any other
unpickling failure is not caught and propagates. -/
def loadValidationSet : List PickleItem → Except LoadError (List ValidationExample)
  | [] => Except.ok []
  | PickleItem.ok v :: rest =>
    match loadValidationSet rest with
    | Except.ok vs => Except.ok (v :: vs)
    | Except.error e => Except.error e
  | PickleItem.bad :: _ => Except.error LoadError.unpickleError

/-- A JSON value of the fragment the summary line uses: non-negative
integers and booleans. -/
inductive JVal where
  | jnum (n : Nat)
  | jbool (b : Bool)
  deriving DecidableEq, Repr

/-- Drop leading space characters. -/
def skipSpaces : List Char → List Char
  | c :: cs => if c = ' ' then skipSpaces cs else c :: cs
  | [] => []

/-- Read characters up to the next double quote; `none` if the quote never
comes. -/
def spanNotQuote : List Char → Option (List Char × List Char)
  | [] => none
  | c :: cs =>
    if c = '\"' then some ([], cs)
    else
      match spanNotQuote cs with
      | some (s, rest) => some (c :: s, rest)
      | none => none

/-- Parse a JSON string literal after optional spaces. -/
def parseJString (l : List Char) : Option (String × List Char) :=
  match skipSpaces l with
  | c :: cs =>
    if c = '\"' then
      match spanNotQuote cs with
      | some (s, rest) => some (String.mk s, rest)
      | none => none
    else none
  | [] => none

/-- Split off a maximal run of decimal digits. -/
def spanDigits : List Char → List Char × List Char
  | [] => ([], [])
  | c :: cs =>
    if c.isDigit then
      match spanDigits cs with
      | (d, r) => (c :: d, r)
    else ([], c :: cs)

/-- Value of a run of decimal digit characters. -/
def digitsToNat (l : List Char) : Nat :=
  l.foldl (fun acc c => acc * 10 + (c.toNat - 48)) 0

/-- Parse a JSON value of the summary fragment: `true`, `false`, or a
non-negative integer. -/
def parseJVal (l : List Char) : Option (JVal × List Char) :=
  match skipSpaces l with
  | 't' :: 'r' :: 'u' :: 'e' :: rest => some (JVal.jbool true, rest)
  | 'f' :: 'a' :: 'l' :: 's' :: 'e' :: rest => some (JVal.jbool false, rest)
  | l2 =>
    match spanDigits l2 with
    | ([], _) => none
    | (ds, rest) => some (JVal.jnum (digitsToNat ds), rest)

/-- Parse the members of a JSON object after its opening brace, consuming
the closing brace; the fuel bounds recursion by the input length. -/
def parseMembers : Nat → List Char → Option (List (String × JVal) × List Char)
  | 0, _ => none
  | Nat.succ fuel, l =>
    match parseJString l with
    | none => none
    | some (k, rest) =>
      match skipSpaces rest with
      | ':' :: rest2 =>
        match parseJVal rest2 with
        | none => none
        | some (v, rest3) =>
          match skipSpaces rest3 with
          | c :: rest4 =>
            if c = ',' then
              match parseMembers fuel rest4 with
              | some (ms, r) => some ((k, v) :: ms, r)
              | none => none
            else if c = '\x7d' then some ([(k, v)], rest4)
            else none
          | [] => none
      | _ => none

/-- Embedding of `json.loads` on the flat-object fragment the summary line
uses: a single object of string keys and integer/boolean values, `none` on
any other input (the `ParseError` case). -/
def jsonLoads (s : String) : Option (List (String × JVal)) :=
  match skipSpaces s.data with
  | c :: rest =>
    if c = '\x7b' then
      match skipSpaces rest with
      | d :: rest2 =>
        if d = '\x7d' then
          if (skipSpaces rest2).isEmpty then some [] else none
        else
          match parseMembers (rest.length + 1) rest with
          | some (ms, r) => if (skipSpaces r).isEmpty then some ms else none
          | none => none
      | [] => none
    else none
  | [] => none

/-- Embedding of cell-3's `json.loads(next(open(path)))`: `next` yields the
first line of the file, raising `StopIteration` on an empty file; the line
is then parsed as a JSON document, and a parse failure propagates. -/
def loadSummary : List String → Except LoadError (List (String × JVal))
  | [] => Except.error LoadError.endOfStream
  | line :: _ =>
    match jsonLoads line with
    | some ms => Except.ok ms
    | none => Except.error LoadError.parseError

/-- The first line of the `b32s25` report as printed by the notebook. -/
def summaryLine : String :=
  "\x7b\"total\": 443, \"correct\": 134, \"syntax-error\": 0, \"runtime-exception\": 16, \"done\": true\x7d"

theorem sum_map_ite_eq_countP {α : Type} (p : α → Bool) (l : List α) :
    (l.map (fun x => if p x then 1 else 0)).sum = l.countP p := by
  induction l with
  | nil => rfl
  | cons a t ih =>
    simp only [List.map_cons, List.sum_cons, List.countP_cons, ih]
    cases h : p a
    · simp [h]
    · simp [h, Nat.add_comm]

/-- C1: for every parsed baseline result file, `error` pairs the prediction
records positionally with the validation set via `zip` (truncating to the
shorter sequence) and returns the count of zipped pairs whose `output`
equals the ground-truth `code`, paired with the count of all predictions
whose `is_correct` flag is true. -/
theorem spec_C1 (result : List BaselineRecord) (data : List ValidationExample) :
    error result data =
      ((result.zip data).countP (fun p => p.1.output == p.2.code),
       result.countP (fun q => q.is_correct)) ∧
    (result.zip data).length = min result.length data.length := by
  refine ⟨?_, by simp⟩
  unfold error
  rw [sum_map_ite_eq_countP, sum_map_ite_eq_countP]

/-- C2 counterexample: with an empty validation set and a baseline file
holding one prediction flagged correct, `error` returns `(0, 1)`, not
`(0, 0)`. -/
theorem spec_C2_cex : error [⟨"x", true⟩] [] ≠ (0, 0) := by decide

/-- C2 amended: with an empty validation set the first component is `0` for
any baseline file, while the second component equals the count of baseline
predictions flagged `is_correct` (so it is not `0` in general). -/
theorem spec_C2 (result : List BaselineRecord) :
    (error result []).1 = 0 ∧
    (error result []).2 = result.countP (fun q => q.is_correct) := by
  constructor
  · unfold error
    simp [List.zip_nil_right]
  · exact sum_map_ite_eq_countP _ _

/-- C3: `loadSummary` reads exactly the first line of the file (later lines
are irrelevant) and parses it as a flat record; on the concrete `b32s25`
summary line it returns exactly the five fields with their values
unchanged. -/
theorem spec_C3 (rest : List String) :
    loadSummary (summaryLine :: rest) =
      Except.ok [("total", JVal.jnum 443), ("correct", JVal.jnum 134),
                 ("syntax-error", JVal.jnum 0),
                 ("runtime-exception", JVal.jnum 16),
                 ("done", JVal.jbool true)] := rfl

/-- C4: end-of-stream is the only handled failure — it terminates the
validation-set load normally, keeping every record read; a malformed pickle
item, an empty summary file, and an unparsable summary line all produce
uncaught errors that abort the run. -/
theorem spec_C4 :
    (∀ vs : List ValidationExample,
       loadValidationSet (vs.map PickleItem.ok) = Except.ok vs) ∧
    (∀ (pre : List ValidationExample) (post : List PickleItem),
       loadValidationSet (pre.map PickleItem.ok ++ PickleItem.bad :: post) =
         Except.error LoadError.unpickleError) ∧
    (loadSummary [] = Except.error LoadError.endOfStream) ∧
    (∀ (line : String) (rest : List String), jsonLoads line = none →
       loadSummary (line :: rest) = Except.error LoadError.parseError) := by
  refine ⟨?_, ?_, rfl, ?_⟩
  · intro vs
    induction vs with
    | nil => rfl
    | cons v t ih => simp [loadValidationSet, ih]
  · intro pre post
    induction pre with
    | nil => rfl
    | cons v t ih => simp [loadValidationSet, ih]
  · intro line rest h
    simp [loadSummary, h]

/-- C4 witness: the general statement instantiated on concrete streams and
files. -/
theorem spec_C4_witness :
    loadValidationSet [PickleItem.ok ⟨"a"⟩] = Except.ok [⟨"a"⟩] ∧
    loadSummary [("x")] = Except.error LoadError.parseError := by
  refine ⟨spec_C4.1 [⟨"a"⟩], spec_C4.2.2.2 ("x") [] (by decide)⟩

/-- C5: loading the validation set is a deterministic function of the file
contents — equal streams yield equal (ordered) results. -/
theorem spec_C5 (s t : List PickleItem) (h : s = t) :
    loadValidationSet s = loadValidationSet t := by rw [h]

/-- C5 witness: the determinism statement applied to a concrete stream. -/
theorem spec_C5_witness :
    loadValidationSet [PickleItem.ok ⟨"z"⟩] =
      loadValidationSet [PickleItem.ok ⟨"z"⟩] :=
  spec_C5 _ _ rfl

/-- C6: `error` is order-sensitive — there is a validation set, a baseline
sequence, and a permutation of the validation set alone under which the
result changes. -/
theorem spec_C6 :
    ∃ (result : List BaselineRecord) (d1 d2 : List ValidationExample),
      d1.Perm d2 ∧ error result d1 ≠ error result d2 := by
  refine ⟨[⟨"a", false⟩, ⟨"b", false⟩], [⟨"a"⟩, ⟨"b"⟩], [⟨"b"⟩, ⟨"a"⟩],
    List.Perm.swap (⟨"b"⟩ : ValidationExample) (⟨"a"⟩ : ValidationExample) [],
    by decide⟩

/-- C7: with 915 validation examples, 915 baseline predictions, and exactly
229 positions where `output` equals `code`, the first component returned by
`error` is `229`. -/
theorem spec_C7 (result : List BaselineRecord) (data : List ValidationExample)
    (_h1 : data.length = 915) (_h2 : result.length = 915)
    (h3 : (result.zip data).countP (fun p => p.1.output == p.2.code) = 229) :
    (error result data).1 = 229 := by
  have h := sum_map_ite_eq_countP
    (fun p : BaselineRecord × ValidationExample => p.1.output == p.2.code)
    (result.zip data)
  unfold error
  rw [h, h3]

/-- Concrete 915-example validation set for the C7 witness: 229 examples
with code `a` followed by 686 with code `b`. -/
def wData : List ValidationExample :=
  List.replicate 229 ⟨"a"⟩ ++ List.replicate 686 ⟨"b"⟩

/-- Concrete 915-record baseline file for the C7 witness: the first 229
outputs match positionally, the rest do not. -/
def wResult : List BaselineRecord :=
  List.replicate 229 ⟨"a", false⟩ ++ List.replicate 686 ⟨"c", false⟩

set_option maxRecDepth 20000 in
/-- C7 witness: the scenario instantiated on concrete 915-element sequences
with exactly 229 positional matches. -/
theorem spec_C7_witness : (error wResult wData).1 = 229 :=
  spec_C7 wResult wData (by decide) (by decide) (by decide)

/-- C8: the second component returned by `error` depends only on the
baseline file — any two validation sets give the same value. -/
theorem spec_C8 (result : List BaselineRecord)
    (d1 d2 : List ValidationExample) :
    (error result d1).2 = (error result d2).2 := rfl

/-- C9: the first component returned by `error` never exceeds the minimum
of the two sequence lengths. -/
theorem spec_C9 (result : List BaselineRecord) (data : List ValidationExample) :
    (error result data).1 ≤ min result.length data.length := by
  have h := sum_map_ite_eq_countP
    (fun p : BaselineRecord × ValidationExample => p.1.output == p.2.code)
    (result.zip data)
  unfold error
  rw [h]
  calc (result.zip data).countP _ ≤ (result.zip data).length :=
        List.countP_le_length _
    _ = min result.length data.length := by simp

/-- C10: on an empty summary file, `loadSummary` fails with the
end-of-stream error raised by reading the first line, before any parsing,
and in particular not with a parse error. -/
theorem spec_C10 :
    loadSummary [] = Except.error LoadError.endOfStream ∧
    loadSummary [] ≠ Except.error LoadError.parseError := by
  refine ⟨rfl, ?_⟩
  simp [loadSummary]

end SED
